import Mathlib

/-!
Verification of the mask-authoring canvas subsystem of the qoar-photo
front end (component CanvasEditor). The component keeps an off-screen
mask canvas at the native resolution of the source image, maps pointer
positions on the letterboxed display canvas to native image coordinates,
accumulates brush strokes, and exports the mask binarized to black and
white for an inpainting API.

The embedding below translates the operations of the component into pure Lean
functions: rasters become structures with a width, a height and a pixel
function; canvas compositing becomes the Porter-Duff operators the code
selects (source-over, source-in) on premultiplied 8-bit pixels; the
letterbox geometry and the pointer mapping become functions over the
rationals; the mutable component state becomes an explicit state type
with one transition function per operation.
-/

namespace QoarPhoto

/-- A canvas pixel in premultiplied-alpha representation; every channel
ranges over 0..255.  The strokes and fills of this program only ever
write fully transparent or fully opaque pixels, where the premultiplied
representation coincides with the straight one. -/
structure Pixel where
  r : Nat
  g : Nat
  b : Nat
  a : Nat
deriving DecidableEq, Repr

/-- A fully transparent pixel: the content of a freshly created or
cleared canvas. -/
def transparentPx : Pixel := ⟨0, 0, 0, 0⟩

/-- Opaque black, the fillStyle of the export background fill. -/
def blackPx : Pixel := ⟨0, 0, 0, 255⟩

/-- Opaque white, the fillStyle of the export source-in fill. -/
def whitePx : Pixel := ⟨255, 255, 255, 255⟩

/-- Opaque magenta, the strokeStyle rgba(255, 0, 255, 1) used for mask
strokes. -/
def magentaPx : Pixel := ⟨255, 0, 255, 255⟩

/-- Porter-Duff source-over on premultiplied 8-bit pixels, the default
canvas composite operation: out = src + dst * (255 - srcAlpha) / 255.
Exact whenever the source alpha is 0 or 255, which covers every drawing
operation this program performs. -/
def overPx (s d : Pixel) : Pixel :=
  ⟨s.r + d.r * (255 - s.a) / 255,
   s.g + d.g * (255 - s.a) / 255,
   s.b + d.b * (255 - s.a) / 255,
   s.a + d.a * (255 - s.a) / 255⟩

/-- Porter-Duff source-in on premultiplied 8-bit pixels: the source is
kept only where the destination has alpha, everything else becomes
transparent: out = src * dstAlpha / 255. -/
def sourceInPx (s d : Pixel) : Pixel :=
  ⟨s.r * d.a / 255,
   s.g * d.a / 255,
   s.b * d.a / 255,
   s.a * d.a / 255⟩

/-- A raster: a width, a height and a pixel function.  Only the pixels
with coordinates inside the width-by-height rectangle are meaningful. -/
structure Image where
  width : Nat
  height : Nat
  pix : Nat → Nat → Pixel

/-- A canvas of the given size whose every pixel is transparent, as
produced by creating a canvas or assigning its width or height. -/
def blankImage (w h : Nat) : Image :=
  ⟨w, h, fun _ _ => transparentPx⟩

/-- ctx.fillRect(0, 0, img.width, img.height) with an opaque fill color
under the default source-over composite: every in-range pixel becomes
the fill color composited over the previous content. -/
def fillRectOver (img : Image) (c : Pixel) : Image :=
  { img with pix := fun x y =>
      if x < img.width ∧ y < img.height then overPx c (img.pix x y)
      else img.pix x y }

/-- ctx.drawImage(src, 0, 0) under the default source-over composite,
for a usable source (positive dimensions): each pixel of src is
composited over the destination at the same coordinates; pixels outside
the extent of src are unchanged.  The usability check of drawImage —
which throws for a zero-dimension canvas source — is modeled by
drawImageChecked below. -/
def drawImageOver (src dst : Image) : Image :=
  { dst with pix := fun x y =>
      if x < src.width ∧ y < src.height then overPx (src.pix x y) (dst.pix x y)
      else dst.pix x y }

/-- ctx.drawImage(src, 0, 0) including its usability check: when the
source canvas has zero width or zero height, drawImage throws an
InvalidStateError DOMException (the error branch); otherwise it
composites as drawImageOver. -/
def drawImageChecked (src dst : Image) : Except Unit Image :=
  if src.width = 0 ∨ src.height = 0 then Except.error ()
  else Except.ok (drawImageOver src dst)

/-- ctx.fillRect(0, 0, img.width, img.height) under the source-in
composite: inside the filled rectangle the fill color is kept weighted
by the destination alpha; outside the filled shape the destination
becomes transparent (here the rectangle is the whole canvas, so the
second branch concerns only out-of-range coordinates). -/
def fillRectSourceIn (img : Image) (c : Pixel) : Image :=
  { img with pix := fun x y =>
      if x < img.width ∧ y < img.height then sourceInPx c (img.pix x y)
      else transparentPx }

/-- The compositing pipeline of getMaskAsBase64 (lines 192 to 212 of the
component) on a mask whose drawImage succeeded (positive dimensions):
create a temp canvas sized like the mask, fill it opaque black, draw the
mask over it with the default composite, then switch to source-in and
fill opaque white. -/
def exportComposite (mask : Image) : Image :=
  let tempCanvas := blankImage mask.width mask.height
  let t1 := fillRectOver tempCanvas blackPx
  let t2 := drawImageOver mask t1
  fillRectSourceIn t2 whitePx

/-- The base64 payload of tempCanvas.toDataURL: a canvas with a zero
dimension encodes to the data URL whose payload after the comma is the
empty string; otherwise the result is the PNG encoding of the
raster. -/
inductive Base64Data where
  | empty
  | pngOf (img : Image)

/-- toDataURL of a canvas, reduced to its base64 payload: empty for a
zero-sized canvas, the PNG encoding of the raster otherwise. -/
def toDataURLBase64 (img : Image) : Base64Data :=
  if img.width = 0 ∨ img.height = 0 then Base64Data.empty
  else Base64Data.pngOf img

/-- The outcome of the promise returned by getMaskAsBase64: the executor
either calls resolve (with undefined or with a base64 payload), or
throws synchronously, which rejects the promise. -/
inductive PromiseOutcome where
  | resolved (v : Option Base64Data)
  | rejected

/-- getMaskAsBase64 (lines 192 to 212): build a temp canvas sized like
the mask; if its 2d context cannot be acquired resolve to undefined;
otherwise fill the temp canvas black and draw the mask over it — when
the mask canvas has a zero dimension this drawImage throws an
InvalidStateError inside the executor and the promise rejects; when it
succeeds, apply the source-in white fill and resolve with the base64
payload of the temp canvas data URL. -/
def getMaskAsBase64 (ctxOk : Bool) (mask : Image) : PromiseOutcome :=
  if ctxOk = false then PromiseOutcome.resolved none
  else
    let tempCanvas := blankImage mask.width mask.height
    let t1 := fillRectOver tempCanvas blackPx
    match drawImageChecked mask t1 with
    | Except.error _ => PromiseOutcome.rejected
    | Except.ok t2 =>
        PromiseOutcome.resolved (some (toDataURLBase64 (fillRectSourceIn t2 whitePx)))

/-- A 2 by 1 mask buffer whose left pixel was painted by a stroke and
whose right pixel was never touched. -/
def maskOnePainted : Image :=
  ⟨2, 1, fun x _ => if x = 0 then magentaPx else transparentPx⟩

/-! ## The component state and its operations -/

/-- The mutable state of the CanvasEditor component that the claims
concern: the loaded source image reduced to its natural dimensions
(none while no image is loaded), the off-screen mask canvas, and
whether a repaint of the visible display canvas has been triggered and
is still pending. -/
structure EditorState where
  image : Option (Nat × Nat)
  mask : Image
  redrawRequested : Bool

/-- The initial state: no image loaded, the mask canvas fresh from
document.createElement (a canvas defaults to 300 by 150, fully
transparent), no redraw pending. -/
def initState : EditorState :=
  { image := none, mask := blankImage 300 150, redrawRequested := false }

/-- The image-load onload handler (lines 28 to 48): setImageElement
records the loaded image unconditionally; only when the display canvas
ref is mounted at fire time (the guard on canvas, lines 32 to 47) are
the mask canvas width and height assigned to the natural dimensions of
the image (assigning a canvas dimension resets its content to
transparent), the whole mask canvas cleared by clearRect, and the
display repainted by the render effect.  When the canvas is unmounted —
reachable when the image URL is cleared while the image is still
loading — the image is recorded with the mask canvas left untouched. -/
def loadImage (w h : Nat) (canvasMounted : Bool) (s : EditorState) : EditorState :=
  if canvasMounted then
    { image := some (w, h), mask := blankImage w h, redrawRequested := true }
  else
    { s with image := some (w, h) }

/-- One continueStroke step of draw (lines 144 to 189): with no loaded
image getCoords returns null and the step is a no-op; otherwise the
round-capped segment is stroked into the mask canvas — the platform
rasterizer covers some region of pixels, passed here as a parameter —
and requestAnimationFrame schedules a repaint of the display canvas. -/
def strokeStep (region : Nat → Nat → Bool) (s : EditorState) : EditorState :=
  match s.image with
  | none => s
  | some _ =>
      { s with
        mask := { s.mask with pix := fun x y =>
                    if (region x y) then magentaPx else s.mask.pix x y },
        redrawRequested := true }

/-- The scheduled animation-frame callback runs: the display canvas is
repainted from the image and the mask, after which no redraw is
pending. -/
def runFrame (s : EditorState) : EditorState :=
  { s with redrawRequested := false }

/-- clearMask (lines 213 to 218): clearRect over the whole mask canvas
erases it to transparent; the line that follows registers an inert
effect hook outside of render, which schedules no repaint, so the
pending-redraw flag is not set. -/
def clearMask (s : EditorState) : EditorState :=
  { s with mask := { s.mask with pix := fun x y =>
      (if (x < s.mask.width ∧ y < s.mask.height) then transparentPx
       else s.mask.pix x y) } }

/-- getMaskAsBase64 as a state operation: it reads the mask canvas,
performs all its drawing on a fresh temp canvas, and leaves the
component state untouched. -/
def exportMaskOp (ctxOk : Bool) (s : EditorState) : PromiseOutcome × EditorState :=
  (getMaskAsBase64 ctxOk s.mask, s)

/-- The operations of the subsystem, for reasoning about all reachable
states. -/
inductive Op where
  | load (w h : Nat) (canvasMounted : Bool)
  | stroke (region : Nat → Nat → Bool)
  | frame
  | clear
  | exportMask (ctxOk : Bool)

/-- Apply one operation to the state. -/
def applyOp (s : EditorState) : Op → EditorState
  | Op.load w h m => loadImage w h m s
  | Op.stroke region => strokeStep region s
  | Op.frame => runFrame s
  | Op.clear => clearMask s
  | Op.exportMask ctxOk => (exportMaskOp ctxOk s).2

/-- Run a list of operations from a state. -/
def run (s : EditorState) : List Op → EditorState
  | [] => s
  | op :: ops => run (applyOp s op) ops

/-! ## Letterbox geometry and pointer mapping -/

/-- The letterbox geometry exactly as computed inside the render effect
(lines 64 to 80), returning (drawX, drawY, drawWidth, drawHeight). -/
def letterboxRender (canvasWidth canvasHeight naturalWidth naturalHeight : ℚ) :
    ℚ × ℚ × ℚ × ℚ :=
  let canvasAspect := canvasWidth / canvasHeight
  let imageAspect := naturalWidth / naturalHeight
  if imageAspect > canvasAspect then
    let drawWidth := canvasWidth
    let drawHeight := drawWidth / imageAspect
    let drawX : ℚ := 0
    let drawY := (canvasHeight - drawHeight) / 2
    (drawX, drawY, drawWidth, drawHeight)
  else
    let drawHeight := canvasHeight
    let drawWidth := drawHeight * imageAspect
    let drawY : ℚ := 0
    let drawX := (canvasWidth - drawWidth) / 2
    (drawX, drawY, drawWidth, drawHeight)

/-- The same formula as duplicated inside getCoords (lines 106 to
119). -/
def letterboxGetCoords (canvasWidth canvasHeight naturalWidth naturalHeight : ℚ) :
    ℚ × ℚ × ℚ × ℚ :=
  let canvasAspect := canvasWidth / canvasHeight
  let imageAspect := naturalWidth / naturalHeight
  if imageAspect > canvasAspect then
    let drawWidth := canvasWidth
    let drawHeight := drawWidth / imageAspect
    let drawX : ℚ := 0
    let drawY := (canvasHeight - drawHeight) / 2
    (drawX, drawY, drawWidth, drawHeight)
  else
    let drawHeight := canvasHeight
    let drawWidth := drawHeight * imageAspect
    let drawY : ℚ := 0
    let drawX := (canvasWidth - drawWidth) / 2
    (drawX, drawY, drawWidth, drawHeight)

/-- The same formula as duplicated a third time inside the
requestAnimationFrame redraw callback of draw (lines 167 to 181). -/
def letterboxRedraw (canvasWidth canvasHeight naturalWidth naturalHeight : ℚ) :
    ℚ × ℚ × ℚ × ℚ :=
  let canvasAspect := canvasWidth / canvasHeight
  let imageAspect := naturalWidth / naturalHeight
  if imageAspect > canvasAspect then
    let drawWidth := canvasWidth
    let drawHeight := drawWidth / imageAspect
    let drawX : ℚ := 0
    let drawY := (canvasHeight - drawHeight) / 2
    (drawX, drawY, drawWidth, drawHeight)
  else
    let drawHeight := canvasHeight
    let drawWidth := drawHeight * imageAspect
    let drawY : ℚ := 0
    let drawX := (canvasWidth - drawWidth) / 2
    (drawX, drawY, drawWidth, drawHeight)

/-- getCoords (lines 94 to 130) for a mounted canvas and a loaded image
(lines 95 to 97 return null when either is missing): map the client
position to backing-store coordinates through the ratio of the canvas
backing size to its bounding rectangle, recompute the letterbox
geometry, reject positions outside the draw rectangle, and rescale the
offset within the rectangle to native image coordinates. -/
def getCoords (canvasWidth canvasHeight rectLeft rectTop rectWidth rectHeight
    naturalWidth naturalHeight clientX clientY : ℚ) : Option (ℚ × ℚ) :=
  let scaleX := canvasWidth / rectWidth
  let scaleY := canvasHeight / rectHeight
  let canvasX := (clientX - rectLeft) * scaleX
  let canvasY := (clientY - rectTop) * scaleY
  let g := letterboxGetCoords canvasWidth canvasHeight naturalWidth naturalHeight
  let drawX := g.1
  let drawY := g.2.1
  let drawWidth := g.2.2.1
  let drawHeight := g.2.2.2
  if canvasX < drawX ∨ canvasX > drawX + drawWidth ∨
      canvasY < drawY ∨ canvasY > drawY + drawHeight then
    none
  else
    some ((canvasX - drawX) / drawWidth * naturalWidth,
          (canvasY - drawY) / drawHeight * naturalHeight)

/-- The line width applied to the mask context in draw (line 152):
brushSize * (imageElement.naturalWidth / canvas.width). -/
def maskLineWidth (brushSize naturalWidth canvasWidth : ℚ) : ℚ :=
  brushSize * (naturalWidth / canvasWidth)

/-! ## Helper lemmas on the letterbox geometry -/

lemma letterboxRender_wide {cw ch iw ih : ℚ} (h : cw / ch < iw / ih) :
    letterboxRender cw ch iw ih =
      (0, (ch - cw / (iw / ih)) / 2, cw, cw / (iw / ih)) := by
  unfold letterboxRender
  rw [if_pos h]

lemma letterboxRender_tall {cw ch iw ih : ℚ} (h : ¬ cw / ch < iw / ih) :
    letterboxRender cw ch iw ih =
      ((cw - ch * (iw / ih)) / 2, 0, ch * (iw / ih), ch) := by
  unfold letterboxRender
  rw [if_neg h]

lemma wide_height_lt {cw ch iw ih : ℚ} (hcw : 0 < cw) (hch : 0 < ch)
    (h : cw / ch < iw / ih) : cw / (iw / ih) < ch := by
  have h1 : cw / (iw / ih) < cw / (cw / ch) :=
    div_lt_div_of_pos_left hcw (div_pos hcw hch) h
  calc cw / (iw / ih) < cw / (cw / ch) := h1
    _ = cw * ch / cw := by rw [div_div_eq_mul_div]
    _ = ch := by rw [mul_comm, mul_div_assoc, div_self hcw.ne', mul_one]

lemma wide_ratio {cw : ℚ} (A : ℚ) (hcw : 0 < cw) :
    cw / (cw / A) = A := by
  rw [div_div_eq_mul_div, mul_comm, mul_div_assoc, div_self hcw.ne', mul_one]

lemma tall_width_le {cw ch iw ih : ℚ} (hch : 0 < ch)
    (h : ¬ cw / ch < iw / ih) : ch * (iw / ih) ≤ cw := by
  have h1 : iw / ih ≤ cw / ch := not_lt.mp h
  calc ch * (iw / ih) ≤ ch * (cw / ch) := mul_le_mul_of_nonneg_left h1 hch.le
    _ = cw := by rw [mul_comm, div_mul_cancel₀ _ hch.ne']

lemma tall_ratio {ch A : ℚ} (hch : 0 < ch) : ch * A / ch = A := by
  rw [mul_comm, mul_div_assoc, div_self hch.ne', mul_one]

lemma letterboxGetCoords_eq_render (cw ch iw ih : ℚ) :
    letterboxGetCoords cw ch iw ih = letterboxRender cw ch iw ih := rfl

lemma letterboxGetCoords_dims_pos {cw ch iw ih : ℚ}
    (hcw : 0 < cw) (hch : 0 < ch) (hiw : 0 < iw) (hih : 0 < ih) :
    0 < (letterboxGetCoords cw ch iw ih).2.2.1 ∧
    0 < (letterboxGetCoords cw ch iw ih).2.2.2 := by
  have hA : 0 < iw / ih := div_pos hiw hih
  rw [letterboxGetCoords_eq_render]
  by_cases h : cw / ch < iw / ih
  · rw [letterboxRender_wide h]
    exact ⟨hcw, div_pos hcw hA⟩
  · rw [letterboxRender_tall h]
    exact ⟨mul_pos hch hA, hch⟩

lemma getCoords_eval (cw ch rl rt rw rh iw ih cx cy : ℚ) :
    getCoords cw ch rl rt rw rh iw ih cx cy =
      if (cx - rl) * (cw / rw) < (letterboxGetCoords cw ch iw ih).1 ∨
          (cx - rl) * (cw / rw) >
            (letterboxGetCoords cw ch iw ih).1 +
              (letterboxGetCoords cw ch iw ih).2.2.1 ∨
          (cy - rt) * (ch / rh) < (letterboxGetCoords cw ch iw ih).2.1 ∨
          (cy - rt) * (ch / rh) >
            (letterboxGetCoords cw ch iw ih).2.1 +
              (letterboxGetCoords cw ch iw ih).2.2.2 then
        none
      else
        some (((cx - rl) * (cw / rw) - (letterboxGetCoords cw ch iw ih).1) /
                (letterboxGetCoords cw ch iw ih).2.2.1 * iw,
              ((cy - rt) * (ch / rh) - (letterboxGetCoords cw ch iw ih).2.1) /
                (letterboxGetCoords cw ch iw ih).2.2.2 * ih) := rfl

/-! ## Helper lemmas on the export promise -/

lemma getMaskAsBase64_ctxOk (mask : Image) :
    getMaskAsBase64 true mask =
      match drawImageChecked mask
          (fillRectOver (blankImage mask.width mask.height) blackPx) with
      | Except.error _ => PromiseOutcome.rejected
      | Except.ok t2 =>
          PromiseOutcome.resolved (some (toDataURLBase64 (fillRectSourceIn t2 whitePx))) :=
  rfl

/-! ## Claim theorems -/

/-- C1: the claim states that the exported mask is opaque white exactly
at stroke-painted pixels and opaque black everywhere else, and that a
cleared or never-painted buffer exports as all black.  The code refutes
this: getMaskAsBase64 fills the temp canvas opaque black BEFORE
switching to the source-in composite, so the white source-in fill finds
a fully opaque destination at every pixel and covers the whole canvas.
Evaluating the export composite shows that a cleared 1 by 1 buffer
exports as white, and that on a 2 by 1 buffer with one painted and one
untouched pixel both pixels export as white, where the claim demands
black for the untouched one and for the cleared buffer. -/
theorem export_binarization_code_bug :
    (exportComposite (blankImage 1 1)).pix 0 0 = whitePx ∧
    (exportComposite maskOnePainted).pix 0 0 = whitePx ∧
    (exportComposite maskOnePainted).pix 1 0 = whitePx ∧
    whitePx ≠ blackPx := by decide

/-- C2: the claim states that clearMask erases the buffer and triggers
the same Display Surface redraw obligation as a completed stroke.  The
code erases the buffer but its redraw attempt is an inert effect-hook
registration outside render that schedules nothing: after a stroke
(which does set the redraw obligation) and its animation frame,
invoking clearMask leaves the canvas with no pending redraw even though
the mask it displays just changed, while the buffer itself is erased to
transparent. -/
theorem clearMask_redraw_code_bug :
    (strokeStep (fun _ _ => true) (loadImage 2 2 true initState)).redrawRequested = true ∧
    (clearMask (runFrame (strokeStep (fun _ _ => true)
      (loadImage 2 2 true initState)))).redrawRequested = false ∧
    (clearMask (runFrame (strokeStep (fun _ _ => true)
      (loadImage 2 2 true initState)))).mask.pix 0 0 = transparentPx ∧
    (clearMask (runFrame (strokeStep (fun _ _ => true)
      (loadImage 2 2 true initState)))).mask.pix 1 1 = transparentPx := by
  refine ⟨rfl, rfl, by decide, by decide⟩

/-- C3: for positive container and image sizes, a pointer whose
backing-store coordinate lies strictly inside the letterbox draw
rectangle is mapped by getCoords to some point inside the rectangle
from 0 to naturalWidth by 0 to naturalHeight, and a pointer strictly
outside the draw rectangle is mapped to none, never to a clamped or
extrapolated point; in the concrete scenario of an 800 by 600 canvas
and a 1600 by 800 image with no CSS scaling, a click at client
(400, 300) maps to image coordinate (800, 400). -/
theorem getCoords_strict_inside_outside (cw ch rl rt rw rh iw ih cx cy : ℚ)
    (hcw : 0 < cw) (hch : 0 < ch) (hiw : 0 < iw) (hih : 0 < ih) :
    (((letterboxGetCoords cw ch iw ih).1 < (cx - rl) * (cw / rw) ∧
      (cx - rl) * (cw / rw) <
        (letterboxGetCoords cw ch iw ih).1 + (letterboxGetCoords cw ch iw ih).2.2.1 ∧
      (letterboxGetCoords cw ch iw ih).2.1 < (cy - rt) * (ch / rh) ∧
      (cy - rt) * (ch / rh) <
        (letterboxGetCoords cw ch iw ih).2.1 + (letterboxGetCoords cw ch iw ih).2.2.2) →
      ∃ p : ℚ × ℚ, getCoords cw ch rl rt rw rh iw ih cx cy = some p ∧
        0 ≤ p.1 ∧ p.1 ≤ iw ∧ 0 ≤ p.2 ∧ p.2 ≤ ih) ∧
    (((cx - rl) * (cw / rw) < (letterboxGetCoords cw ch iw ih).1 ∨
      (cx - rl) * (cw / rw) >
        (letterboxGetCoords cw ch iw ih).1 + (letterboxGetCoords cw ch iw ih).2.2.1 ∨
      (cy - rt) * (ch / rh) < (letterboxGetCoords cw ch iw ih).2.1 ∨
      (cy - rt) * (ch / rh) >
        (letterboxGetCoords cw ch iw ih).2.1 + (letterboxGetCoords cw ch iw ih).2.2.2) →
      getCoords cw ch rl rt rw rh iw ih cx cy = none) ∧
    getCoords 800 600 0 0 800 600 1600 800 400 300 = some (800, 400) := by
  obtain ⟨hdw, hdh⟩ := letterboxGetCoords_dims_pos hcw hch hiw hih
  refine ⟨?_, ?_, ?_⟩
  · rintro ⟨h1, h2, h3, h4⟩
    rw [getCoords_eval,
      if_neg (by push_neg; exact ⟨h1.le, by linarith, h3.le, by linarith⟩)]
    refine ⟨_, rfl, ?_, ?_, ?_, ?_⟩
    · exact mul_nonneg (div_nonneg (by linarith) hdw.le) hiw.le
    · calc ((cx - rl) * (cw / rw) - (letterboxGetCoords cw ch iw ih).1) /
            (letterboxGetCoords cw ch iw ih).2.2.1 * iw
          ≤ 1 * iw := by
            refine mul_le_mul_of_nonneg_right ?_ hiw.le
            exact (div_le_one hdw).mpr (by linarith)
        _ = iw := one_mul iw
    · exact mul_nonneg (div_nonneg (by linarith) hdh.le) hih.le
    · calc ((cy - rt) * (ch / rh) - (letterboxGetCoords cw ch iw ih).2.1) /
            (letterboxGetCoords cw ch iw ih).2.2.2 * ih
          ≤ 1 * ih := by
            refine mul_le_mul_of_nonneg_right ?_ hih.le
            exact (div_le_one hdh).mpr (by linarith)
        _ = ih := one_mul ih
  · intro hout
    rw [getCoords_eval, if_pos hout]
  · norm_num [getCoords, letterboxGetCoords]

/-- C3 witness: the concrete scenario maps the center click to
(800, 400), and a click whose backing-store y coordinate 50 is strictly
above the draw rectangle (drawY = 100) maps to none. -/
theorem getCoords_strict_inside_outside_wit :
    getCoords 800 600 0 0 800 600 1600 800 400 300 = some (800, 400) ∧
    getCoords 800 600 0 0 800 600 1600 800 400 50 = none := by
  have h := getCoords_strict_inside_outside 800 600 0 0 800 600 1600 800 400 50
    (by norm_num) (by norm_num) (by norm_num) (by norm_num)
  refine ⟨h.2.2, h.2.1 ?_⟩
  right; right; left
  norm_num [letterboxGetCoords]

/-- C4: for positive container sizes (Cw, Ch) and image sizes (Iw, Ih),
the letterbox computation of the render effect yields a draw rectangle
with positive extent that is fully contained within the container, whose
width to height ratio equals Iw / Ih exactly over the rationals; when
the image aspect exceeds the container aspect the rectangle is width-fit
(drawWidth = Cw, drawX = 0) and vertically centered, otherwise it is
height-fit (drawHeight = Ch, drawY = 0) and horizontally centered. -/
theorem letterbox_geometry_spec (cw ch iw ih : ℚ)
    (hcw : 0 < cw) (hch : 0 < ch) (hiw : 0 < iw) (hih : 0 < ih) :
    0 ≤ (letterboxRender cw ch iw ih).1 ∧
    0 ≤ (letterboxRender cw ch iw ih).2.1 ∧
    0 < (letterboxRender cw ch iw ih).2.2.1 ∧
    0 < (letterboxRender cw ch iw ih).2.2.2 ∧
    (letterboxRender cw ch iw ih).1 + (letterboxRender cw ch iw ih).2.2.1 ≤ cw ∧
    (letterboxRender cw ch iw ih).2.1 + (letterboxRender cw ch iw ih).2.2.2 ≤ ch ∧
    (letterboxRender cw ch iw ih).2.2.1 / (letterboxRender cw ch iw ih).2.2.2 = iw / ih ∧
    (iw / ih > cw / ch →
      (letterboxRender cw ch iw ih).2.2.1 = cw ∧
      (letterboxRender cw ch iw ih).1 = 0 ∧
      (letterboxRender cw ch iw ih).2.1 =
        (ch - (letterboxRender cw ch iw ih).2.2.2) / 2) ∧
    (¬ iw / ih > cw / ch →
      (letterboxRender cw ch iw ih).2.2.2 = ch ∧
      (letterboxRender cw ch iw ih).2.1 = 0 ∧
      (letterboxRender cw ch iw ih).1 =
        (cw - (letterboxRender cw ch iw ih).2.2.1) / 2) := by
  have hA : 0 < iw / ih := div_pos hiw hih
  by_cases h : cw / ch < iw / ih
  · rw [letterboxRender_wide h]
    have hdh0 : 0 < cw / (iw / ih) := div_pos hcw hA
    have hdhch : cw / (iw / ih) < ch := wide_height_lt hcw hch h
    refine ⟨le_refl 0, by linarith, hcw, hdh0, by linarith, by linarith,
      wide_ratio (iw / ih) hcw, fun _ => ⟨rfl, rfl, rfl⟩, fun hc => absurd h hc⟩
  · rw [letterboxRender_tall h]
    have hdw0 : 0 < ch * (iw / ih) := mul_pos hch hA
    have hdwcw : ch * (iw / ih) ≤ cw := tall_width_le hch h
    refine ⟨by linarith, le_refl 0, hdw0, hch, by linarith, by linarith,
      tall_ratio hch, fun hc => absurd hc h, fun _ => ⟨rfl, rfl, rfl⟩⟩

/-- C4 witness: the geometry theorem instantiated at the 800 by 600
container with the 1600 by 800 image, a width-fit case. -/
theorem letterbox_geometry_spec_wit :
    0 ≤ (letterboxRender 800 600 1600 800).1 ∧
    0 ≤ (letterboxRender 800 600 1600 800).2.1 ∧
    0 < (letterboxRender 800 600 1600 800).2.2.1 ∧
    0 < (letterboxRender 800 600 1600 800).2.2.2 ∧
    (letterboxRender 800 600 1600 800).1 + (letterboxRender 800 600 1600 800).2.2.1 ≤ 800 ∧
    (letterboxRender 800 600 1600 800).2.1 + (letterboxRender 800 600 1600 800).2.2.2 ≤ 600 ∧
    (letterboxRender 800 600 1600 800).2.2.1 / (letterboxRender 800 600 1600 800).2.2.2 =
      1600 / 800 ∧
    (letterboxRender 800 600 1600 800).2.2.1 = 800 := by
  have h := letterbox_geometry_spec 800 600 1600 800
    (by norm_num) (by norm_num) (by norm_num) (by norm_num)
  exact ⟨h.1, h.2.1, h.2.2.1, h.2.2.2.1, h.2.2.2.2.1, h.2.2.2.2.2.1,
    h.2.2.2.2.2.2.1, (h.2.2.2.2.2.2.2.1 (by norm_num)).1⟩

/-- C5: the three textually duplicated letterbox computations — in the
render effect, in getCoords, and in the redraw-after-stroke callback —
are the same function of (canvas width, canvas height, natural width,
natural height). -/
theorem letterbox_consumers_agree :
    ∀ cw ch iw ih : ℚ,
      letterboxRender cw ch iw ih = letterboxGetCoords cw ch iw ih ∧
      letterboxGetCoords cw ch iw ih = letterboxRedraw cw ch iw ih :=
  fun _ _ _ _ => ⟨rfl, rfl⟩

/-- C6: exporting the mask is idempotent and side-effect-free on the
Mask Buffer: the component state (in particular the mask raster and its
dimensions) is unchanged by an export, and two exports in a row with no
drawing in between return identical results. -/
theorem export_idempotent_pure :
    ∀ (ctxOk : Bool) (s : EditorState),
      (exportMaskOp ctxOk s).2 = s ∧
      (exportMaskOp ctxOk ((exportMaskOp ctxOk s).2)).1 = (exportMaskOp ctxOk s).1 ∧
      (exportMaskOp ctxOk s).2.mask.width = s.mask.width ∧
      (exportMaskOp ctxOk s).2.mask.height = s.mask.height ∧
      ∀ x y, (exportMaskOp ctxOk s).2.mask.pix x y = s.mask.pix x y :=
  fun _ _ => ⟨rfl, rfl, rfl, rfl, fun _ _ => rfl⟩

/-- C7: the stroke line width applied to the Mask Buffer equals the
brush size in display pixels times the ratio of the image natural width
to the display canvas backing width; with brush size 30, backing width
800 and natural width 1600 the stroke width is exactly 60 native
pixels. -/
theorem maskLineWidth_spec :
    ∀ brushSize naturalWidth canvasWidth : ℚ,
      maskLineWidth brushSize naturalWidth canvasWidth =
        brushSize * (naturalWidth / canvasWidth) ∧
      maskLineWidth 30 1600 800 = 60 :=
  fun _ _ _ => ⟨rfl, by norm_num [maskLineWidth]⟩

/-- C8 counterexample: the claim states that a Mask Buffer with zero
dimensions makes getMaskAsBase64 resolve to undefined rather than
failing, and that the promise never rejects.  In the code the context
check passes and drawImage of the zero-sized mask canvas then throws an
InvalidStateError inside the promise executor, so the promise rejects:
it neither resolves to undefined nor avoids rejection. -/
theorem getMask_zero_dims_counterexample :
    getMaskAsBase64 true (blankImage 0 0) = PromiseOutcome.rejected ∧
    getMaskAsBase64 true (blankImage 0 0) ≠ PromiseOutcome.resolved none := by
  constructor
  · rfl
  · intro h
    rw [show getMaskAsBase64 true (blankImage 0 0) = PromiseOutcome.rejected from rfl] at h
    exact PromiseOutcome.noConfusion h

/-- C8 amended: when the rendering context cannot be acquired the export
resolves to undefined; when the context is available but the Mask
Buffer has a zero dimension, drawImage throws inside the executor and
the promise rejects instead of resolving to undefined (a path
unreachable in normal operation: the mask canvas starts at the 300 by
150 element default and is only ever resized to positive natural image
dimensions); with a context and positive dimensions the export always
resolves with the base64 payload of the composited raster. -/
theorem getMask_failure_paths (ctxOk : Bool) (mask : Image) :
    (ctxOk = false → getMaskAsBase64 ctxOk mask = PromiseOutcome.resolved none) ∧
    (ctxOk = true → mask.width = 0 ∨ mask.height = 0 →
      getMaskAsBase64 ctxOk mask = PromiseOutcome.rejected) ∧
    (ctxOk = true → 0 < mask.width → 0 < mask.height →
      getMaskAsBase64 ctxOk mask =
        PromiseOutcome.resolved (some (toDataURLBase64 (exportComposite mask)))) := by
  refine ⟨?_, ?_, ?_⟩
  · intro h; subst h; rfl
  · intro h hz
    subst h
    rw [getMaskAsBase64_ctxOk]
    unfold drawImageChecked
    rw [if_pos hz]
  · intro h hw hh
    subst h
    rw [getMaskAsBase64_ctxOk]
    unfold drawImageChecked
    rw [if_neg (by push_neg; exact ⟨hw.ne', hh.ne'⟩)]
    rfl

/-- C8 witness: an unavailable context resolves to undefined, a zero
width buffer with an available context rejects, and a positive buffer
resolves with the composited payload. -/
theorem getMask_failure_paths_wit :
    getMaskAsBase64 false (blankImage 2 2) = PromiseOutcome.resolved none ∧
    getMaskAsBase64 true (blankImage 0 5) = PromiseOutcome.rejected ∧
    getMaskAsBase64 true (blankImage 2 2) =
      PromiseOutcome.resolved (some (toDataURLBase64 (exportComposite (blankImage 2 2)))) :=
  ⟨(getMask_failure_paths false (blankImage 2 2)).1 rfl,
   (getMask_failure_paths true (blankImage 0 5)).2.1 rfl (Or.inl rfl),
   (getMask_failure_paths true (blankImage 2 2)).2.2 rfl (by decide) (by decide)⟩

/-- C9: the claim states that whenever both a source image and a Mask
Buffer exist, the mask dimensions equal the natural dimensions of the
image after every operation, and that a new load resets the mask.  The
code refutes the first part: setImageElement runs unconditionally in
the onload handler, but the mask canvas resize and clear sit inside the
guard on the display canvas ref, so when an image load completes after
the canvas was unmounted (the image URL was cleared mid-load) the image
is recorded while the mask keeps its previous dimensions — from the
initial state, a 1600 by 800 image then coexists with the 300 by 150
default mask canvas.  When the canvas is mounted the load does reset
the mask to a transparent raster of the new dimensions, as the second
half of the evaluation shows. -/
theorem mask_dims_code_bug :
    (run initState [Op.load 1600 800 false]).image = some (1600, 800) ∧
    (run initState [Op.load 1600 800 false]).mask.width = 300 ∧
    (run initState [Op.load 1600 800 false]).mask.height = 150 ∧
    (300 : Nat) ≠ 1600 ∧
    (run initState [Op.load 4 3 true, Op.stroke (fun _ _ => true),
      Op.load 1600 800 true]).mask.width = 1600 ∧
    (run initState [Op.load 4 3 true, Op.stroke (fun _ _ => true),
      Op.load 1600 800 true]).mask.height = 800 ∧
    (run initState [Op.load 4 3 true, Op.stroke (fun _ _ => true),
      Op.load 1600 800 true]).mask.pix 0 0 = transparentPx := by
  refine ⟨rfl, rfl, rfl, by decide, rfl, rfl, rfl⟩

/-- C10: a pointer whose backing-store coordinate lies exactly on the
far boundary of the draw rectangle is accepted by getCoords (the
rejection test uses strict inequalities), and the returned coordinate
equals exactly (naturalWidth, naturalHeight) — one past the last valid
pixel index — with no clamping applied to the output; concretely, on
the 800 by 600 canvas with the 1600 by 800 image a click at the
bottom-right corner (800, 500) of the draw rectangle maps to
(1600, 800). -/
theorem getCoords_boundary_exact (cw ch rl rt rw rh iw ih cx cy : ℚ)
    (hcw : 0 < cw) (hch : 0 < ch) (hiw : 0 < iw) (hih : 0 < ih)
    (hx : (cx - rl) * (cw / rw) =
      (letterboxGetCoords cw ch iw ih).1 + (letterboxGetCoords cw ch iw ih).2.2.1)
    (hy : (cy - rt) * (ch / rh) =
      (letterboxGetCoords cw ch iw ih).2.1 + (letterboxGetCoords cw ch iw ih).2.2.2) :
    getCoords cw ch rl rt rw rh iw ih cx cy = some (iw, ih) ∧
    getCoords 800 600 0 0 800 600 1600 800 800 500 = some (1600, 800) := by
  obtain ⟨hdw, hdh⟩ := letterboxGetCoords_dims_pos hcw hch hiw hih
  constructor
  · rw [getCoords_eval,
      if_neg (by push_neg; exact ⟨by linarith, by linarith, by linarith, by linarith⟩)]
    rw [hx, hy]
    congr 1
    have e1 : (letterboxGetCoords cw ch iw ih).1 + (letterboxGetCoords cw ch iw ih).2.2.1 -
        (letterboxGetCoords cw ch iw ih).1 = (letterboxGetCoords cw ch iw ih).2.2.1 := by
      ring
    have e2 : (letterboxGetCoords cw ch iw ih).2.1 + (letterboxGetCoords cw ch iw ih).2.2.2 -
        (letterboxGetCoords cw ch iw ih).2.1 = (letterboxGetCoords cw ch iw ih).2.2.2 := by
      ring
    rw [e1, e2, div_self hdw.ne', div_self hdh.ne', one_mul, one_mul]
  · norm_num [getCoords, letterboxGetCoords]

/-- C10 witness: the boundary theorem instantiated at the bottom-right
corner of the draw rectangle in the concrete scenario. -/
theorem getCoords_boundary_exact_wit :
    getCoords 800 600 0 0 800 600 1600 800 800 500 = some (1600, 800) := by
  have h := getCoords_boundary_exact 800 600 0 0 800 600 1600 800 800 500
    (by norm_num) (by norm_num) (by norm_num) (by norm_num)
    (by norm_num [letterboxGetCoords]) (by norm_num [letterboxGetCoords])
  exact h.1

end QoarPhoto
